import Mathlib

/-!
Verification of the SpacetimeDB quickstart chat module (src/lib.rs).

The module is embedded shallowly: each table is a list of rows inside a
`State`, each reducer is a function from a state (plus the ambient caller
identity and timestamp) to a new state, fallible reducers return
`Except String Unit`, and the two SQL client-visibility filters become
Boolean predicates over rows. Reachable states are those obtained from the
`init` reducer applied to the empty store by any sequence of events.
-/

/-- Caller identity. In the source this is a SpacetimeDB `Identity`, an
opaque 256-bit value; we model it as a natural number. -/
abbrev Identity := Nat

/-- Timestamps assigned by the store; modelled as natural numbers. -/
abbrev Timestamp := Nat

/-- Row of the `user` table (struct `User` in src/lib.rs). -/
structure User where
  identity : Identity
  name : Option String
  online : Bool
  authorized : Bool
  dummy_join : Bool
  deriving DecidableEq, Repr

/-- Row of the `message` table (struct `Message` in src/lib.rs). -/
structure Message where
  sender : Identity
  sent : Timestamp
  text : String
  dummy_join : Bool
  deriving DecidableEq, Repr

/-- The transactional record store: both tables. -/
structure State where
  users : List User
  messages : List Message
  deriving DecidableEq, Repr

/-- The empty store, before the module is published. -/
def emptyState : State := { users := [], messages := [] }

/-- The hard-coded administrative identity from `init`:
the hex constant c2009546b62e8bf62a4b1387664842c54821f56214e6e6897021091f3f5a053f
read as a number (`Identity::from_hex` succeeds on this well-formed string). -/
def adminIdentity : Identity :=
  0xc2009546b62e8bf62a4b1387664842c54821f56214e6e6897021091f3f5a053f

/-- `ctx.db.user().identity().find(i)`: look up a user row by its
primary key `identity`. -/
def findUser (s : State) (i : Identity) : Option User :=
  s.users.find? (fun u => u.identity == i)

/-- `ctx.db.user().identity().update(r)`: replace the row whose primary
key equals `r.identity` by `r`. -/
def updateUser (s : State) (r : User) : State :=
  { s with users := s.users.map (fun v => if v.identity == r.identity then r else v) }

/-- The users table after the row with primary key `i` is replaced by `r`
and every other row is kept; used to state frame conditions. -/
def replaceUser (l : List User) (i : Identity) (r : User) : List User :=
  l.map (fun v => if v.identity == i then r else v)

/-- `ctx.db.user().insert(r)`. -/
def insertUser (s : State) (r : User) : State :=
  { s with users := s.users ++ [r] }

/-- `ctx.db.message().insert(m)`. -/
def insertMessage (s : State) (m : Message) : State :=
  { s with messages := s.messages ++ [m] }

/-- Reducer `init`: called when the module is initially published; inserts
the authorized administrative user. -/
def init (s : State) : State :=
  insertUser s
    { identity := adminIdentity, name := none, online := true, authorized := true,
      dummy_join := true }

/-- Helper `validate_identity` from src/lib.rs: the three-way gate on the
caller. -/
def validate_identity (s : State) (sender : Identity) : Except String Unit :=
  match findUser s sender with
  | some user =>
      if user.authorized then Except.ok ()
      else Except.error "Unauthorized user attempted to perform an action"
  | none => Except.error "Validation failed: Unknown user"

/-- Helper `validate_name` from src/lib.rs. -/
def validate_name (name : String) : Except String String :=
  if name.isEmpty then Except.error "Names must not be empty" else Except.ok name

/-- Reducer `set_name`: validates the caller, re-finds the caller row,
validates the name and updates the row in place. Returns the result
together with the post-transaction state. -/
def set_name (s : State) (sender : Identity) (name : String) :
    Except String Unit × State :=
  match validate_identity s sender with
  | Except.error e => (Except.error e, s)
  | Except.ok _ =>
      match findUser s sender with
      | some user =>
          match validate_name name with
          | Except.error e => (Except.error e, s)
          | Except.ok n => (Except.ok (), updateUser s { user with name := some n })
      | none => (Except.error "Cannot set name for unknown user", s)

/-- Helper `validate_message` from src/lib.rs. -/
def validate_message (text : String) : Except String String :=
  if text.isEmpty then Except.error "Messages must not be empty" else Except.ok text

/-- Reducer `send_message`: validates the caller and the text, then inserts
one message row stamped with the transaction timestamp. The `log::info`
call is a no-op for the store. -/
def send_message (s : State) (sender : Identity) (ts : Timestamp) (text : String) :
    Except String Unit × State :=
  match validate_identity s sender with
  | Except.error e => (Except.error e, s)
  | Except.ok _ =>
      match validate_message text with
      | Except.error e => (Except.error e, s)
      | Except.ok t =>
          (Except.ok (),
           insertMessage s { sender := sender, sent := ts, text := t, dummy_join := true })

/-- Reducer `client_connected`: upsert of the caller row with
`online = true`; the trailing unauthorized-user log is a no-op for the
store. -/
def client_connected (s : State) (sender : Identity) : State :=
  match findUser s sender with
  | some user => updateUser s { user with online := true }
  | none =>
      insertUser s
        { identity := sender, name := none, online := true, authorized := false,
          dummy_join := true }

/-- Reducer `identity_disconnected`: set `online = false` if the caller row
exists; otherwise only log (no state change). -/
def identity_disconnected (s : State) (sender : Identity) : State :=
  match findUser s sender with
  | some user => updateUser s { user with online := false }
  | none => s

/-- The `ACCOUNT_FILTER` visibility predicate:
`SELECT * FROM user WHERE identity = :sender`. -/
def account_filter (observer : Identity) (u : User) : Bool :=
  u.identity == observer

/-- The `MESSAGE_FILTER` visibility predicate:
`SELECT m.* FROM message m JOIN user u ON u.dummy_join = m.dummy_join
WHERE u.authorized = true AND u.identity = :sender`.
A message row is replicated to the observer when some user row joins with
it on `dummy_join` and is the observer's own authorized row. -/
def message_filter (users : List User) (observer : Identity) (m : Message) : Bool :=
  users.any (fun u => u.dummy_join == m.dummy_join && u.authorized && u.identity == observer)

/-- External events that drive the reducers after publication. -/
inductive Event where
  | connect (sender : Identity)
  | disconnect (sender : Identity)
  | setName (sender : Identity) (name : String)
  | sendMessage (sender : Identity) (ts : Timestamp) (text : String)
  deriving DecidableEq, Repr

/-- One transaction. -/
def step (s : State) : Event → State
  | Event.connect i => client_connected s i
  | Event.disconnect i => identity_disconnected s i
  | Event.setName i n => (set_name s i n).2
  | Event.sendMessage i ts t => (send_message s i ts t).2

/-- Run a sequence of events. -/
def run (s : State) (es : List Event) : State := es.foldl step s

/-- States reachable from bootstrap. -/
def Reachable (s : State) : Prop := ∃ es, s = run (init emptyState) es

/-- The administrative user row created at bootstrap. -/
def adminUser : User :=
  { identity := adminIdentity, name := none, online := true, authorized := true,
    dummy_join := true }

/-- A concrete post-bootstrap history: the administrator sends one message. -/
def chatEvents : List Event := [Event.sendMessage adminIdentity 0 "hello"]

/-- The state reached by `chatEvents`. -/
def chatState : State := run (init emptyState) chatEvents

/-- The message row inserted by `chatEvents`. -/
def helloMessage : Message :=
  { sender := adminIdentity, sent := 0, text := "hello", dummy_join := true }

/-- Invariant maintained by every reachable state: user identities are
unique (primary key), every `dummy_join` field is `true`, message text is
never empty, and only the administrative row is authorized. -/
structure ReachInv (s : State) : Prop where
  uniq : ∀ u ∈ s.users, ∀ v ∈ s.users, u.identity = v.identity → u = v
  udj : ∀ u ∈ s.users, u.dummy_join = true
  mdj : ∀ m ∈ s.messages, m.dummy_join = true
  mtext : ∀ m ∈ s.messages, m.text.isEmpty = false
  auth : ∀ u ∈ s.users, u.authorized = true → u.identity = adminIdentity

/-- Replacing a row by one with the same primary key leaves every
identity in the table unchanged pointwise. -/
lemma ite_row_identity (r v : User) :
    (if v.identity == r.identity then r else v).identity = v.identity := by
  cases h : (v.identity == r.identity)
  · simp [h]
  · have := eq_of_beq h
    simp [h, this]

lemma inv_updateUser {s : State} (hs : ReachInv s) {u r : User} (hu : u ∈ s.users)
    (hid : r.identity = u.identity) (hdj : r.dummy_join = u.dummy_join)
    (hauth : r.authorized = u.authorized) : ReachInv (updateUser s r) := by
  constructor
  · intro w1 hw1 w2 hw2 heq
    simp only [updateUser, List.mem_map] at hw1 hw2
    rcases hw1 with ⟨v1, hv1, rfl⟩
    rcases hw2 with ⟨v2, hv2, rfl⟩
    have h1 := ite_row_identity r v1
    have h2 := ite_row_identity r v2
    have hv : v1 = v2 := hs.uniq v1 hv1 v2 hv2 (by rw [← h1, ← h2]; exact heq)
    rw [hv]
  · intro w hw
    simp only [updateUser, List.mem_map] at hw
    rcases hw with ⟨v, hv, rfl⟩
    split
    · rw [hdj]; exact hs.udj u hu
    · exact hs.udj v hv
  · intro m hm
    exact hs.mdj m hm
  · intro m hm
    exact hs.mtext m hm
  · intro w hw hwa
    simp only [updateUser, List.mem_map] at hw
    rcases hw with ⟨v, hv, rfl⟩
    cases h : (v.identity == r.identity) with
    | false =>
        simp only [h, Bool.false_eq_true, if_false] at hwa ⊢
        exact hs.auth v hv hwa
    | true =>
        simp only [h, if_true] at hwa ⊢
        rw [hid]
        exact hs.auth u hu (by rw [← hauth]; exact hwa)

lemma inv_insertUser {s : State} (hs : ReachInv s) {r : User}
    (hnew : ∀ u ∈ s.users, u.identity ≠ r.identity)
    (hdj : r.dummy_join = true)
    (hauth : r.authorized = true → r.identity = adminIdentity) :
    ReachInv (insertUser s r) := by
  constructor
  · intro w1 hw1 w2 hw2 heq
    simp only [insertUser, List.mem_append, List.mem_singleton] at hw1 hw2
    rcases hw1 with hw1 | rfl <;> rcases hw2 with hw2 | rfl
    · exact hs.uniq _ hw1 _ hw2 heq
    · exact absurd heq (hnew _ hw1)
    · exact absurd heq.symm (hnew _ hw2)
    · rfl
  · intro w hw
    simp only [insertUser, List.mem_append, List.mem_singleton] at hw
    rcases hw with hw | rfl
    · exact hs.udj _ hw
    · exact hdj
  · intro m hm
    exact hs.mdj m hm
  · intro m hm
    exact hs.mtext m hm
  · intro w hw hwa
    simp only [insertUser, List.mem_append, List.mem_singleton] at hw
    rcases hw with hw | rfl
    · exact hs.auth _ hw hwa
    · exact hauth hwa

lemma inv_insertMessage {s : State} (hs : ReachInv s) {m : Message}
    (hdj : m.dummy_join = true) (ht : m.text.isEmpty = false) :
    ReachInv (insertMessage s m) := by
  constructor
  · exact hs.uniq
  · exact hs.udj
  · intro w hw
    simp only [insertMessage, List.mem_append, List.mem_singleton] at hw
    rcases hw with hw | rfl
    · exact hs.mdj _ hw
    · exact hdj
  · intro w hw
    simp only [insertMessage, List.mem_append, List.mem_singleton] at hw
    rcases hw with hw | rfl
    · exact hs.mtext _ hw
    · exact ht
  · exact hs.auth

/-- Every transaction has one of four shapes: replace one user row keeping
its identity, authorization and join flag; insert a fresh unauthorized user
row; insert one non-empty message row; or leave the state unchanged. -/
lemma step_shape (s : State) (e : Event) :
    (∃ c w r, findUser s c = some w ∧ r.identity = w.identity ∧
       r.authorized = w.authorized ∧ r.dummy_join = w.dummy_join ∧
       step s e = updateUser s r) ∨
    (∃ r, findUser s r.identity = none ∧ r.authorized = false ∧ r.dummy_join = true ∧
       step s e = insertUser s r) ∨
    (∃ m, m.dummy_join = true ∧ m.text.isEmpty = false ∧
       step s e = insertMessage s m) ∨
    step s e = s := by
  cases e with
  | connect i =>
      cases h : findUser s i with
      | some u =>
          exact Or.inl ⟨i, u, { u with online := true }, h, rfl, rfl, rfl, by
            simp [step, client_connected, h]⟩
      | none =>
          have hstep : step s (Event.connect i) =
              insertUser s
                { identity := i, name := none, online := true, authorized := false,
                  dummy_join := true } := by
            simp [step, client_connected, h]
          exact Or.inr (Or.inl ⟨_, h, rfl, rfl, hstep⟩)
  | disconnect i =>
      cases h : findUser s i with
      | some u =>
          exact Or.inl ⟨i, u, { u with online := false }, h, rfl, rfl, rfl, by
            simp [step, identity_disconnected, h]⟩
      | none =>
          exact Or.inr (Or.inr (Or.inr (by simp [step, identity_disconnected, h])))
  | setName i n =>
      cases h : findUser s i with
      | some u =>
          cases ha : u.authorized with
          | false =>
              exact Or.inr (Or.inr (Or.inr (by
                simp [step, set_name, validate_identity, h, ha])))
          | true =>
              cases hn : n.isEmpty with
              | true =>
                  exact Or.inr (Or.inr (Or.inr (by
                    simp [step, set_name, validate_identity, validate_name, h, ha, hn])))
              | false =>
                  exact Or.inl ⟨i, u, { u with name := some n }, h, rfl, rfl, rfl, by
                    simp [step, set_name, validate_identity, validate_name, h, ha, hn]⟩
      | none =>
          exact Or.inr (Or.inr (Or.inr (by simp [step, set_name, validate_identity, h])))
  | sendMessage i ts t =>
      cases h : findUser s i with
      | some u =>
          cases ha : u.authorized with
          | false =>
              exact Or.inr (Or.inr (Or.inr (by
                simp [step, send_message, validate_identity, h, ha])))
          | true =>
              cases ht : t.isEmpty with
              | true =>
                  exact Or.inr (Or.inr (Or.inr (by
                    simp [step, send_message, validate_identity, validate_message, h, ha, ht])))
              | false =>
                  refine Or.inr (Or.inr (Or.inl
                    ⟨{ sender := i, sent := ts, text := t, dummy_join := true }, rfl, ht, ?_⟩))
                  simp [step, send_message, validate_identity, validate_message, h, ha, ht]
      | none =>
          exact Or.inr (Or.inr (Or.inr (by
            simp [step, send_message, validate_identity, h])))

lemma inv_step {s : State} (hs : ReachInv s) (e : Event) : ReachInv (step s e) := by
  rcases step_shape s e with
    ⟨c, w, r, hf, hid, hauth, hdj, heq⟩ | ⟨r, hf, hra, hrd, heq⟩ |
    ⟨m, hmd, hmt, heq⟩ | heq
  · rw [heq]
    exact inv_updateUser hs (List.mem_of_find?_eq_some hf) hid hdj hauth
  · rw [heq]
    refine inv_insertUser hs ?_ hrd (by simp [hra])
    intro u hu hcontra
    have hnone := List.find?_eq_none.mp hf u hu
    exact hnone (by simp [hcontra])
  · rw [heq]
    exact inv_insertMessage hs hmd hmt
  · rw [heq]
    exact hs

lemma inv_init : ReachInv (init emptyState) := by
  constructor
  · intro u hu v hv _
    simp only [init, insertUser, emptyState, List.nil_append, List.mem_singleton] at hu hv
    rw [hu, hv]
  · intro u hu
    simp only [init, insertUser, emptyState, List.nil_append, List.mem_singleton] at hu
    rw [hu]
  · intro m hm
    simp [init, insertUser, emptyState] at hm
  · intro m hm
    simp [init, insertUser, emptyState] at hm
  · intro u hu _
    simp only [init, insertUser, emptyState, List.nil_append, List.mem_singleton] at hu
    rw [hu]

lemma inv_run {s : State} (hs : ReachInv s) (es : List Event) : ReachInv (run s es) := by
  induction es generalizing s with
  | nil => exact hs
  | cons e es ih => exact ih (inv_step hs e)

lemma reachable_inv {s : State} (hs : Reachable s) : ReachInv s := by
  rcases hs with ⟨es, rfl⟩
  exact inv_run inv_init es

/-- Claim C6: running bootstrap on an empty store produces exactly one User
row, the hard-coded administrative identity with `authorized = true`,
`online = true`, `name = none`, and no Message rows. -/
theorem init_bootstrap :
    init emptyState =
      { users := [{ identity := adminIdentity, name := none, online := true,
                    authorized := true, dummy_join := true }],
        messages := [] } := rfl

/-- Claim C7: the user visibility predicate admits a row precisely when the
row's identity equals the observer's identity. -/
theorem account_filter_spec (observer : Identity) (u : User) :
    account_filter observer u = true ↔ u.identity = observer := by
  simp [account_filter]

/-- Witness for C7 at a concrete observer and row. -/
theorem account_filter_spec_witness :
    account_filter 5
      { identity := 5, name := none, online := false, authorized := false,
        dummy_join := true } = true :=
  (account_filter_spec 5
    { identity := 5, name := none, online := false, authorized := false,
      dummy_join := true }).mpr rfl

/-- Claim C1: in every reachable state, the message visibility predicate
admits a message row if and only if the observer's own User row exists and
has `authorized = true`; the sender of the message plays no role, so an
authorized observer sees every message and an unknown or unauthorized
observer sees none. -/
theorem message_filter_observer_gate (s : State) (hs : Reachable s)
    (observer : Identity) (m : Message) (hm : m ∈ s.messages) :
    message_filter s.users observer m = true ↔
      ∃ u, findUser s observer = some u ∧ u.authorized = true := by
  have hInv := reachable_inv hs
  have hmd : m.dummy_join = true := hInv.mdj m hm
  constructor
  · intro h
    unfold message_filter at h
    rw [List.any_eq_true] at h
    obtain ⟨u, hu, hcond⟩ := h
    simp only [Bool.and_eq_true, beq_iff_eq] at hcond
    obtain ⟨⟨hdj, hua⟩, hid⟩ := hcond
    cases hfind : findUser s observer with
    | none =>
        have hnone := List.find?_eq_none.mp
          (show s.users.find? (fun u => u.identity == observer) = none from hfind) u hu
        exact absurd (by simp [hid]) hnone
    | some w =>
        have hw : w ∈ s.users := List.mem_of_find?_eq_some hfind
        have hwid : w.identity = observer := by
          have hp := List.find?_some
            (show s.users.find? (fun u => u.identity == observer) = some w from hfind)
          simpa using hp
        have huw : u = w := hInv.uniq u hu w hw (by rw [hid, hwid])
        exact ⟨w, rfl, by rw [← huw]; exact hua⟩
  · rintro ⟨u, hfind, hauth⟩
    have hu : u ∈ s.users := List.mem_of_find?_eq_some hfind
    have hid : u.identity = observer := by
      have hp := List.find?_some
        (show s.users.find? (fun u => u.identity == observer) = some u from hfind)
      simpa using hp
    unfold message_filter
    rw [List.any_eq_true]
    refine ⟨u, hu, ?_⟩
    simp [hInv.udj u hu, hmd, hauth, hid]

/-- Witness for C1: in the concrete history where the administrator sent
one message, the administrator (whose row is authorized) is replicated that
message. -/
theorem message_filter_observer_gate_witness :
    message_filter chatState.users adminIdentity helloMessage = true :=
  (message_filter_observer_gate chatState ⟨chatEvents, rfl⟩ adminIdentity helloMessage
    (by decide)).mpr ⟨adminUser, by decide, rfl⟩

/-- Claim C2: `set_name` fails with the unknown-caller error when no User
row exists, with the unauthorized error when the caller row exists but is
unauthorized (for any name), with the empty-name error for a known
authorized caller and empty name, and for a known authorized caller and
non-empty name it succeeds, updating only that row's `name` field. -/
theorem set_name_cases (s : State) (c : Identity) (name : String) :
    (findUser s c = none →
      set_name s c name = (Except.error "Validation failed: Unknown user", s)) ∧
    (∀ u, findUser s c = some u → u.authorized = false →
      set_name s c name =
        (Except.error "Unauthorized user attempted to perform an action", s)) ∧
    (∀ u, findUser s c = some u → u.authorized = true → name.isEmpty = true →
      set_name s c name = (Except.error "Names must not be empty", s)) ∧
    (∀ u, findUser s c = some u → u.authorized = true → name.isEmpty = false →
      set_name s c name =
        (Except.ok (),
         { s with users := replaceUser s.users c { u with name := some name } })) := by
  refine ⟨?_, ?_, ?_, ?_⟩
  · intro h
    simp [set_name, validate_identity, h]
  · intro u h ha
    simp [set_name, validate_identity, h, ha]
  · intro u h ha hn
    simp [set_name, validate_identity, validate_name, h, ha, hn]
  · intro u h ha hn
    have hid : u.identity = c := by
      have hp := List.find?_some
        (show s.users.find? (fun v => v.identity == c) = some u from h)
      simpa using hp
    simp [set_name, validate_identity, validate_name, updateUser, replaceUser, h, ha, hn, hid]

/-- Witness for C2: the bootstrap administrator successfully renames. -/
theorem set_name_cases_witness :
    set_name (init emptyState) adminIdentity "Alice" =
      (Except.ok (),
       { users := [{ adminUser with name := some "Alice" }], messages := [] }) := by
  have h := (set_name_cases (init emptyState) adminIdentity "Alice").2.2.2 adminUser rfl rfl rfl
  rw [h]
  rfl

/-- Claim C3: `send_message` has the same three-way caller gate as
`set_name`, and for a known authorized caller with non-empty text it
succeeds and appends exactly one Message row with the caller as sender, the
transaction timestamp, and the given text, changing no other row. -/
theorem send_message_cases (s : State) (c : Identity) (ts : Timestamp) (text : String) :
    (findUser s c = none →
      send_message s c ts text = (Except.error "Validation failed: Unknown user", s)) ∧
    (∀ u, findUser s c = some u → u.authorized = false →
      send_message s c ts text =
        (Except.error "Unauthorized user attempted to perform an action", s)) ∧
    (∀ u, findUser s c = some u → u.authorized = true → text.isEmpty = true →
      send_message s c ts text = (Except.error "Messages must not be empty", s)) ∧
    (∀ u, findUser s c = some u → u.authorized = true → text.isEmpty = false →
      send_message s c ts text =
        (Except.ok (),
         { s with messages := s.messages ++
             [{ sender := c, sent := ts, text := text, dummy_join := true }] })) := by
  refine ⟨?_, ?_, ?_, ?_⟩
  · intro h
    simp [send_message, validate_identity, h]
  · intro u h ha
    simp [send_message, validate_identity, h, ha]
  · intro u h ha ht
    simp [send_message, validate_identity, validate_message, h, ha, ht]
  · intro u h ha ht
    simp [send_message, validate_identity, validate_message, insertMessage, h, ha, ht]

/-- Witness for C3: the bootstrap administrator successfully sends a
message. -/
theorem send_message_cases_witness :
    send_message (init emptyState) adminIdentity 42 "hi" =
      (Except.ok (),
       { init emptyState with messages := (init emptyState).messages ++
           [{ sender := adminIdentity, sent := 42, text := "hi", dummy_join := true }] }) :=
  (send_message_cases (init emptyState) adminIdentity 42 "hi").2.2.2 adminUser rfl rfl rfl

/-- Claim C4: on connect, an existing caller row gets `online = true` with
all other fields untouched and no other row changes; an unknown caller gets
exactly one fresh row with `authorized = false`, `online = true`,
`name = none`. -/
theorem client_connected_spec (s : State) (i : Identity) :
    (∀ u, findUser s i = some u →
      client_connected s i =
        { s with users := replaceUser s.users i { u with online := true } }) ∧
    (findUser s i = none →
      client_connected s i =
        { s with users := s.users ++
            [{ identity := i, name := none, online := true, authorized := false,
               dummy_join := true }] }) := by
  constructor
  · intro u h
    have hid : u.identity = i := by
      have hp := List.find?_some
        (show s.users.find? (fun v => v.identity == i) = some u from h)
      simpa using hp
    simp [client_connected, updateUser, replaceUser, h, hid]
  · intro h
    simp [client_connected, insertUser, h]

/-- Witness for C4: a never-seen identity connects after bootstrap. -/
theorem client_connected_spec_witness :
    client_connected (init emptyState) 7 =
      { init emptyState with users := (init emptyState).users ++
          [{ identity := 7, name := none, online := true, authorized := false,
             dummy_join := true }] } :=
  (client_connected_spec (init emptyState) 7).2 (by decide)

/-- Claim C5: on disconnect, an existing caller row gets `online = false`
with all other fields untouched and no other row changes; for an unknown
caller the state is unchanged (no row is ever inserted here). -/
theorem identity_disconnected_spec (s : State) (i : Identity) :
    (∀ u, findUser s i = some u →
      identity_disconnected s i =
        { s with users := replaceUser s.users i { u with online := false } }) ∧
    (findUser s i = none → identity_disconnected s i = s) := by
  constructor
  · intro u h
    have hid : u.identity = i := by
      have hp := List.find?_some
        (show s.users.find? (fun v => v.identity == i) = some u from h)
      simpa using hp
    simp [identity_disconnected, updateUser, replaceUser, h, hid]
  · intro h
    simp [identity_disconnected, h]

/-- Witness for C5: a disconnect for a never-seen identity changes
nothing. -/
theorem identity_disconnected_spec_witness :
    identity_disconnected (init emptyState) 7 = init emptyState :=
  (identity_disconnected_spec (init emptyState) 7).2 (by decide)

/-- Claim C8: in every reachable state the only authorized User row is the
bootstrap administrative identity's row, and no transaction changes the
`authorized` field of any existing row. -/
theorem authorized_only_admin (s : State) (hs : Reachable s) :
    (∀ u ∈ s.users, u.authorized = true → u.identity = adminIdentity) ∧
    (∀ e, ∀ u ∈ s.users, ∃ v ∈ (step s e).users,
       v.identity = u.identity ∧ v.authorized = u.authorized) := by
  have hInv := reachable_inv hs
  refine ⟨hInv.auth, ?_⟩
  intro e u hu
  rcases step_shape s e with
    ⟨c, w, r, hf, hid, hauth, hdj, heq⟩ | ⟨r, hf, hra, hrd, heq⟩ |
    ⟨m, hmd, hmt, heq⟩ | heq
  · rw [heq]
    refine ⟨if u.identity == r.identity then r else u, ?_, ite_row_identity r u, ?_⟩
    · simp only [updateUser]
      exact List.mem_map.mpr ⟨u, hu, rfl⟩
    · cases hb : (u.identity == r.identity) with
      | false => simp
      | true =>
          have hw : w ∈ s.users := List.mem_of_find?_eq_some hf
          have huw : u = w := hInv.uniq u hu w hw (by rw [eq_of_beq hb, hid])
          simp [hauth, huw]
  · rw [heq]
    exact ⟨u, by simp [insertUser, hu], rfl, rfl⟩
  · rw [heq]
    exact ⟨u, hu, rfl, rfl⟩
  · rw [heq]
    exact ⟨u, hu, rfl, rfl⟩

/-- Witness for C8: at the bootstrap state, the administrative row is
authorized, so the theorem forces its identity to be the administrative
identity. -/
theorem authorized_only_admin_witness : adminUser.identity = adminIdentity :=
  (authorized_only_admin (init emptyState) ⟨[], rfl⟩).1 adminUser (by decide) rfl

/-- Claim C9: in every reachable state every Message row has non-empty
text; every transaction only appends to the message table (rows are never
modified or deleted); and connect, disconnect and set-name transactions
leave the message table untouched, so send-message is the only operation
that writes it. -/
theorem message_rows_invariant (s : State) (hs : Reachable s) :
    (∀ m ∈ s.messages, m.text.isEmpty = false) ∧
    (∀ e, ∃ t, (step s e).messages = s.messages ++ t) ∧
    (∀ i, (step s (Event.connect i)).messages = s.messages) ∧
    (∀ i, (step s (Event.disconnect i)).messages = s.messages) ∧
    (∀ i n, (step s (Event.setName i n)).messages = s.messages) := by
  have hInv := reachable_inv hs
  refine ⟨hInv.mtext, ?_, ?_, ?_, ?_⟩
  · intro e
    rcases step_shape s e with
      ⟨c, w, r, hf, hid, hauth, hdj, heq⟩ | ⟨r, hf, hra, hrd, heq⟩ |
      ⟨m, hmd, hmt, heq⟩ | heq
    · exact ⟨[], by rw [heq]; simp [updateUser]⟩
    · exact ⟨[], by rw [heq]; simp [insertUser]⟩
    · exact ⟨[m], by rw [heq]; simp [insertMessage]⟩
    · exact ⟨[], by rw [heq]; simp⟩
  · intro i
    cases h : findUser s i with
    | some u => simp [step, client_connected, h, updateUser]
    | none => simp [step, client_connected, h, insertUser]
  · intro i
    cases h : findUser s i with
    | some u => simp [step, identity_disconnected, h, updateUser]
    | none => simp [step, identity_disconnected, h]
  · intro i n
    cases h : findUser s i with
    | some u =>
        cases ha : u.authorized with
        | false => simp [step, set_name, validate_identity, h, ha]
        | true =>
            cases hn : n.isEmpty with
            | true => simp [step, set_name, validate_identity, validate_name, h, ha, hn]
            | false =>
                simp [step, set_name, validate_identity, validate_name, h, ha, hn, updateUser]
    | none => simp [step, set_name, validate_identity, h]

/-- Witness for C9: the message of the concrete history has non-empty
text. -/
theorem message_rows_invariant_witness : helloMessage.text.isEmpty = false :=
  (message_rows_invariant chatState ⟨chatEvents, rfl⟩).1 helloMessage (by decide)

/-- Claim C10: whenever `validate_identity` succeeds, the subsequent lookup
of the caller row necessarily finds a row, so the branch of `set_name`
returning the error for setting a name for an unknown user is unreachable:
the result of `set_name` is always success or one of the three gate
errors. -/
theorem set_name_unknown_branch (s : State) (c : Identity) (n : String) :
    (validate_identity s c = Except.ok () →
       ∃ u, findUser s c = some u ∧ u.authorized = true) ∧
    ((set_name s c n).1 = Except.ok () ∨
     (set_name s c n).1 = Except.error "Validation failed: Unknown user" ∨
     (set_name s c n).1 = Except.error "Unauthorized user attempted to perform an action" ∨
     (set_name s c n).1 = Except.error "Names must not be empty") := by
  cases h : findUser s c with
  | none =>
      constructor
      · intro hv
        simp [validate_identity, h] at hv
      · right; left
        simp [set_name, validate_identity, h]
  | some u =>
      cases ha : u.authorized with
      | false =>
          constructor
          · intro hv
            simp [validate_identity, h, ha] at hv
          · right; right; left
            simp [set_name, validate_identity, h, ha]
      | true =>
          constructor
          · exact fun _ => ⟨u, rfl, ha⟩
          · cases hn : n.isEmpty with
            | true =>
                right; right; right
                simp [set_name, validate_identity, validate_name, h, ha, hn]
            | false =>
                left
                simp [set_name, validate_identity, validate_name, h, ha, hn]

/-- Witness for C10: at the bootstrap state the administrator passes
validation, and the theorem produces the caller row. -/
theorem set_name_unknown_branch_witness :
    ∃ u, findUser (init emptyState) adminIdentity = some u ∧ u.authorized = true :=
  (set_name_unknown_branch (init emptyState) adminIdentity "x").1 rfl
